import Mathlib

/-!
# Verification of the notion-webhook-server ingestion core

Shallow embedding of `src/main.py`: error classification and the retrying
dispatcher (`create_notion_page`), the batch collector
(`process_request_queue` / `process_batch`), the rolling-metrics recorder
(`Metrics`), and the TTL cache (`cache_result` / `get_database_info`).
Durations and instants are modelled as rationals; the external Notion call
is modelled as a function from the attempt index to a result, where a
failure carries the error message text (the Python `str(e)`).
-/

namespace NotionWebhook

/-- Python substring test `pat in s` on the underlying character lists:
`startsWithChars pat l` is `pat` being a prefix of `l`. -/
def startsWithChars : List Char → List Char → Bool
  | [], _ => true
  | _ :: _, [] => false
  | a :: as, b :: bs => a == b && startsWithChars as bs

/-- `containsChars pat l`: `pat` occurs as a contiguous substring of `l`. -/
def containsChars (pat : List Char) : List Char → Bool
  | [] => startsWithChars pat []
  | c :: rest => startsWithChars pat (c :: rest) || containsChars pat rest

/-- Python `pat in s` for strings (substring containment). -/
def strContains (s pat : String) : Bool :=
  containsChars pat.data s.data

/-- The four failure classes of §4.3: the dispatcher's classification of the
external failure text (src/main.py lines 381-387). -/
inductive ErrClass
  | unauthorized
  | notFound
  | validation
  | transient
deriving DecidableEq, Repr

/-- The if/elif chain of `create_notion_page`'s except-block: first match on
the raw message `str(e)` decides the class (src/main.py lines 381-387). -/
def classifyError (e : String) : ErrClass :=
  if strContains e "Unauthorized" then ErrClass.unauthorized
  else if strContains e "Not Found" then ErrClass.notFound
  else if strContains e "Validation" then ErrClass.validation
  else ErrClass.transient

/-- HTTP status attached to each class by the same if/elif chain:
401 / 404 / 400, and the default `NotionError` status 500. -/
def errStatus : ErrClass → Nat
  | ErrClass.unauthorized => 401
  | ErrClass.notFound => 404
  | ErrClass.validation => 400
  | ErrClass.transient => 500

/-- `NotionError` (src/main.py lines 268-272): message plus status code. -/
structure NotionError where
  message : String
  statusCode : Nat
deriving DecidableEq, Repr

/-- The `NotionError` raised by `create_notion_page` for a raw external
failure message `e`: message `"Failed to create Notion page: " + str(e)`,
status from the substring classification of `str(e)`. -/
def mkNotionError (e : String) : NotionError :=
  { message := "Failed to create Notion page: " ++ e
    statusCode := errStatus (classifyError e) }

/-- `MAX_RETRIES` (env default "3", src/main.py line 40). -/
def MAX_RETRIES : Nat := 3

/-- One attempt of `create_notion_page`'s body: an external success returns
the page id; an external failure is caught and re-raised as the classified
`NotionError`. -/
def oneAttempt (r : Except String String) : Except NotionError String :=
  match r with
  | Except.ok pid => Except.ok pid
  | Except.error e => Except.error (mkNotionError e)

/-- The tenacity `@retry(stop=stop_after_attempt(MAX_RETRIES), reraise=True)`
loop around `create_notion_page`: `call i` is the external result of attempt
`i` (0-based). `fuel` is the number of attempts still allowed; any raised
exception triggers a retry while attempts remain (tenacity's default retry
predicate retries on every `Exception`), and the last attempt's exception is
re-raised. Returns the final result and the number of attempts performed. -/
def retryGo (call : Nat → Except String String) :
    Nat → Nat → Except NotionError String × Nat
  | _, 0 => (Except.error (mkNotionError "no attempt performed"), 0)
  | i, fuel + 1 =>
    match oneAttempt (call i) with
    | Except.ok r => (Except.ok r, 1)
    | Except.error err =>
      if fuel = 0 then (Except.error err, 1)
      else
        let res := retryGo call (i + 1) fuel
        (res.1, res.2 + 1)

/-- `create_notion_page` (src/main.py lines 352-387) under the retry
decorator: result of the dispatch together with the attempt count. -/
def create_notion_page (call : Nat → Except String String) :
    Except NotionError String × Nat :=
  retryGo call 0 MAX_RETRIES

/-- `BATCH_SIZE` (env default "10", src/main.py line 42). -/
def BATCH_SIZE : Nat := 10

/-- One collection cycle of `process_request_queue` (src/main.py lines
228-237): repeatedly dequeue until `BATCH_SIZE` items are gathered or a
dequeue times out. The pending queue is a list; a timeout is modelled as
the queue being empty (no item arrives within the 1-second window).
`fuel` is `BATCH_SIZE - len(batch)`. Returns the batch and the remaining
queue. -/
def collectGo {α : Type} : Nat → List α → List α × List α
  | 0, q => ([], q)
  | _ + 1, [] => ([], [])
  | fuel + 1, x :: q =>
    let res := collectGo fuel q
    (x :: res.1, res.2)

/-- One batch-collection cycle starting from an empty batch. -/
def collectBatch {α : Type} (q : List α) : List α × List α :=
  collectGo BATCH_SIZE q

/-- The `Metrics` state (src/main.py lines 51-59); times and instants are
rationals (seconds). -/
structure Metrics where
  request_times : List ℚ
  queue_times : List ℚ
  notion_api_times : List ℚ
  total_requests : Nat
  failed_requests : Nat
  queue_size : Nat
  last_reset : ℚ
deriving DecidableEq, Repr

/-- `Metrics.__init__`: empty windows and zero counters, started at
`startTime` (the code uses `datetime.now(JST)`). -/
def Metrics.init (startTime : ℚ) : Metrics :=
  { request_times := []
    queue_times := []
    notion_api_times := []
    total_requests := 0
    failed_requests := 0
    queue_size := 0
    last_reset := startTime }

/-- The rolling-window push shared by the three `add_*_time` methods
(src/main.py lines 61-74): append, then `pop(0)` if the length exceeds
100. -/
def pushWindow (w : List ℚ) (t : ℚ) : List ℚ :=
  let w2 := w ++ [t]
  if 100 < w2.length then w2.drop 1 else w2

/-- `Metrics.add_request_time` (src/main.py lines 61-64). -/
def Metrics.add_request_time (m : Metrics) (t : ℚ) : Metrics :=
  { m with request_times := pushWindow m.request_times t }

/-- `Metrics.add_queue_time` (src/main.py lines 66-69). -/
def Metrics.add_queue_time (m : Metrics) (t : ℚ) : Metrics :=
  { m with queue_times := pushWindow m.queue_times t }

/-- `Metrics.add_notion_time` (src/main.py lines 71-74). -/
def Metrics.add_notion_time (m : Metrics) (t : ℚ) : Metrics :=
  { m with notion_api_times := pushWindow m.notion_api_times t }

/-- Arithmetic mean of a list of rationals (`statistics.mean`). -/
def listMean (l : List ℚ) : ℚ :=
  l.sum / (l.length : ℚ)

/-- The dictionary returned by `Metrics.get_stats` (src/main.py lines
76-89). -/
structure Stats where
  total_requests : Nat
  failed_requests : Nat
  current_queue_size : Nat
  uptime_seconds : ℚ
  average_request_time : ℚ
  average_queue_time : ℚ
  average_notion_time : ℚ
  success_rate : ℚ
deriving DecidableEq, Repr

/-- `Metrics.get_stats` (src/main.py lines 76-89), with the current instant
`now` passed explicitly: each average is the mean of its window when
non-empty and 0 otherwise; `success_rate` is
`(total - failed) / total * 100` when `total > 0` and 100 otherwise. -/
def Metrics.get_stats (m : Metrics) (now : ℚ) : Stats :=
  { total_requests := m.total_requests
    failed_requests := m.failed_requests
    current_queue_size := m.queue_size
    uptime_seconds := now - m.last_reset
    average_request_time :=
      if m.request_times = [] then 0 else listMean m.request_times
    average_queue_time :=
      if m.queue_times = [] then 0 else listMean m.queue_times
    average_notion_time :=
      if m.notion_api_times = [] then 0 else listMean m.notion_api_times
    success_rate :=
      if 0 < m.total_requests then
        ((m.total_requests : ℚ) - (m.failed_requests : ℚ))
          / (m.total_requests : ℚ) * 100
      else 100 }

/-- One queue entry as handed to `process_batch`: the observable effects of
its iteration of the batch loop. `queueTime` is the measured queueing
latency; `dispatchResult` is what `create_notion_page` does for this item
(page id, or the exception it raises); `notionTime` is the measured
dispatch latency, recorded only when the dispatch succeeds (an exception
skips the recording). -/
structure BatchItem where
  queueTime : ℚ
  dispatchResult : Except NotionError String
  notionTime : ℚ

/-- One iteration of the `process_batch` loop body (src/main.py lines
250-265): record the queue time, dispatch; on success record the notion
time, on any exception increment `failed_requests` and continue. -/
def processItem (m : Metrics) (it : BatchItem) : Metrics :=
  let m1 := m.add_queue_time it.queueTime
  match it.dispatchResult with
  | Except.ok _ => m1.add_notion_time it.notionTime
  | Except.error _ =>
    { m1 with failed_requests := m1.failed_requests + 1 }

/-- Whether a batch item's dispatch raises (the except-branch of the
`process_batch` loop body is taken for it). -/
def isFailedItem (it : BatchItem) : Bool :=
  match it.dispatchResult with
  | Except.ok _ => false
  | Except.error _ => true

/-- `process_batch` (src/main.py lines 248-265): the loop over the batch.
It is a total fold: a failing item updates the metrics and the loop
continues with the next item; nothing propagates to the caller. -/
def process_batch (m : Metrics) (batch : List BatchItem) : Metrics :=
  batch.foldl processItem m

/-- `metrics.total_requests += 1` (src/main.py line 409). -/
def incTotal (m : Metrics) : Metrics :=
  { m with total_requests := m.total_requests + 1 }

/-- `metrics.failed_requests += 1` (src/main.py lines 435, 448). -/
def incFailed (m : Metrics) : Metrics :=
  { m with failed_requests := m.failed_requests + 1 }

/-- The shared-state transitions of the webhook endpoint and the batch
processor, over `(metrics, number of queued items)`:
* `submit_ok` — `webhook` (src/main.py lines 406-433): increment
  `total_requests`, enqueue the item, record the request time;
* `submit_fail` — `webhook`'s except-paths (lines 434-454): the body
  raised before `request_queue.put` completed (nothing after the `put`
  can raise), so `total_requests` was already incremented and
  `failed_requests` is incremented, with no item enqueued;
* `dispatch` — one iteration of `process_batch` (lines 250-265) consuming
  one queued item; `processItem` increments `failed_requests` exactly when
  the item's dispatch fails. -/
inductive SysStep : Metrics × Nat → Metrics × Nat → Prop
  | submit_ok (m : Metrics) (q : Nat) (rt : ℚ) :
      SysStep (m, q) (((incTotal m).add_request_time rt), q + 1)
  | submit_fail (m : Metrics) (q : Nat) :
      SysStep (m, q) (incFailed (incTotal m), q)
  | dispatch (m : Metrics) (q : Nat) (it : BatchItem) :
      SysStep (m, q + 1) (processItem m it, q)

/-- Reachability from the process-start state: fresh metrics, empty
queue. -/
def SysReachable (s : Metrics × Nat) : Prop :=
  Relation.ReflTransGen SysStep (Metrics.init 0, 0) s

/-- `CACHE_TTL` (env default "300" seconds, src/main.py line 41). -/
def CACHE_TTL : ℚ := 300

/-- `db_cache.get(cache_key)` for the single `"database_info"` key of the
`TTLCache` (src/main.py lines 93, 103): the entry is `(storedAt, value)`,
treated as absent once its age reaches the TTL. -/
def cacheLookup (entry : Option (ℚ × String)) (now : ℚ) : Option String :=
  match entry with
  | none => none
  | some (storedAt, v) =>
    if now < storedAt + CACHE_TTL then some v else none

/-- `get_database_info` under the `cache_result` wrapper (src/main.py
lines 98-112, 218-221): on a hit return the cached value without fetching;
on a miss call the external fetch (its result is `fetch`), store it with
the current instant, and return it. The third component counts the
external fetches this call performed (0 or 1). -/
def get_database_info (entry : Option (ℚ × String)) (fetch : String)
    (now : ℚ) : String × Option (ℚ × String) × Nat :=
  match cacheLookup entry now with
  | some v => (v, entry, 0)
  | none => (fetch, some (now, fetch), 1)

/-! ## Helper lemmas -/

/-- Evaluation of the retry loop when every attempt fails: all `fuel`
attempts are performed and the final attempt's classified error is the
result. -/
theorem retryGo_allFail (call : Nat → Except String String)
    (msgs : Nat → String) (h : ∀ i, call i = Except.error (msgs i)) :
    ∀ fuel i, 0 < fuel →
      retryGo call i fuel
        = (Except.error (mkNotionError (msgs (i + fuel - 1))), fuel) := by
  intro fuel
  induction fuel with
  | zero => intro i hi; exact absurd hi (by simp)
  | succ f ih =>
    intro i _
    cases f with
    | zero =>
      simp [retryGo, oneAttempt, h i]
    | succ g =>
      have hidx : i + 1 + (g + 1) - 1 = i + (g + 1 + 1) - 1 := by omega
      have hrec := ih (i + 1) (Nat.succ_pos g)
      rw [hidx] at hrec
      rw [retryGo, h i]
      simp [oneAttempt, hrec]

/-! ## Theorems for the claims -/

/-- Claim C1: with `MAX_RETRIES = 3` and an external call that fails on
every attempt with a transient-classified message, `create_notion_page`
performs exactly 3 attempts and then raises the final attempt's
`NotionError` (status 500) rather than swallowing it. -/
theorem dispatch_transient_exhausts_retries
    (call : Nat → Except String String) (msgs : Nat → String)
    (hfail : ∀ i, call i = Except.error (msgs i))
    (htrans : ∀ i, classifyError (msgs i) = ErrClass.transient) :
    (create_notion_page call).2 = 3
    ∧ (create_notion_page call).1 = Except.error (mkNotionError (msgs 2))
    ∧ (mkNotionError (msgs 2)).statusCode = 500 := by
  have heval := retryGo_allFail call msgs hfail 3 0 (by simp)
  have hmk : (mkNotionError (msgs 2)).statusCode = 500 := by
    simp [mkNotionError, htrans 2, errStatus]
  refine ⟨?_, ?_, hmk⟩
  · simp [create_notion_page, MAX_RETRIES, heval]
  · simpa [create_notion_page, MAX_RETRIES] using congrArg Prod.fst heval

/-- Witness for C1 at a concrete always-transient external call. -/
theorem dispatch_transient_exhausts_retries_witness :
    (create_notion_page (fun _ => Except.error "read timeout")).2 = 3
    ∧ (create_notion_page (fun _ => Except.error "read timeout")).1
        = Except.error (mkNotionError "read timeout")
    ∧ (mkNotionError "read timeout").statusCode = 500 :=
  dispatch_transient_exhausts_retries (fun _ => Except.error "read timeout")
    (fun _ => "read timeout") (fun _ => rfl)
    (fun _ =>
      (by decide : classifyError "read timeout" = ErrClass.transient))

/-- Claim C2 counterexample: an external call that always fails with an
`Unauthorized`-classified message is nevertheless retried — all 3 attempts
are consumed, not 1, so non-transient classifications do consume retry
attempts (tenacity's default predicate retries every exception). -/
theorem unauthorized_failure_is_retried_counterexample :
    classifyError "Unauthorized" = ErrClass.unauthorized
    ∧ (create_notion_page (fun _ => Except.error "Unauthorized")).2 = 3
    ∧ (create_notion_page (fun _ => Except.error "Unauthorized")).2 ≠ 1 := by
  refine ⟨by decide, by decide, by decide⟩

/-- Claim C2 (amended): every failure, whatever its classification,
consumes retry attempts; an external call that fails on every attempt
undergoes exactly `MAX_RETRIES = 3` attempts and the final attempt's
classified `NotionError` is re-raised. -/
theorem all_failures_consume_retries
    (call : Nat → Except String String) (msgs : Nat → String)
    (hfail : ∀ i, call i = Except.error (msgs i)) :
    (create_notion_page call).2 = 3
    ∧ (create_notion_page call).1 = Except.error (mkNotionError (msgs 2)) := by
  have heval := retryGo_allFail call msgs hfail 3 0 (by simp)
  constructor
  · simp [create_notion_page, MAX_RETRIES, heval]
  · simpa [create_notion_page, MAX_RETRIES] using congrArg Prod.fst heval

/-- Witness for the amended C2 at a concrete `Not Found`-classified call. -/
theorem all_failures_consume_retries_witness :
    (create_notion_page (fun _ => Except.error "Not Found")).2 = 3
    ∧ (create_notion_page (fun _ => Except.error "Not Found")).1
        = Except.error (mkNotionError "Not Found") :=
  all_failures_consume_retries (fun _ => Except.error "Not Found")
    (fun _ => "Not Found") (fun _ => rfl)

/-- Claim C3: the classification is a pure function of the failure message
text mapping it to exactly one of four outcomes with the stated status
codes, reading the substring checks in their `if/elif` order: a message
containing `"Unauthorized"` yields 401; otherwise one containing
`"Not Found"` yields 404; otherwise one containing `"Validation"` yields
400; any other message yields the default 500 transient error. -/
theorem classification_maps_to_stated_codes (msg : String) :
    (strContains msg "Unauthorized" = true →
        (mkNotionError msg).statusCode = 401)
    ∧ (strContains msg "Unauthorized" = false →
        strContains msg "Not Found" = true →
        (mkNotionError msg).statusCode = 404)
    ∧ (strContains msg "Unauthorized" = false →
        strContains msg "Not Found" = false →
        strContains msg "Validation" = true →
        (mkNotionError msg).statusCode = 400)
    ∧ (strContains msg "Unauthorized" = false →
        strContains msg "Not Found" = false →
        strContains msg "Validation" = false →
        (mkNotionError msg).statusCode = 500) := by
  refine ⟨fun h1 => ?_, fun h1 h2 => ?_, fun h1 h2 h3 => ?_,
    fun h1 h2 h3 => ?_⟩ <;>
    simp [mkNotionError, classifyError, errStatus, h1]
  all_goals simp_all

/-- Witness for C3 on concrete messages of each class. -/
theorem classification_maps_to_stated_codes_witness :
    (mkNotionError "Unauthorized token").statusCode = 401
    ∧ (mkNotionError "database Not Found").statusCode = 404
    ∧ (mkNotionError "Validation failed").statusCode = 400
    ∧ (mkNotionError "connection reset").statusCode = 500 :=
  ⟨(classification_maps_to_stated_codes "Unauthorized token").1 (by decide),
   (classification_maps_to_stated_codes "database Not Found").2.1
     (by decide) (by decide),
   (classification_maps_to_stated_codes "Validation failed").2.2.1
     (by decide) (by decide) (by decide),
   (classification_maps_to_stated_codes "connection reset").2.2.2
     (by decide) (by decide) (by decide)⟩

/-- Claim C10: the classification applies the substring checks in the
fixed order `"Unauthorized"`, `"Not Found"`, `"Validation"`, and the first
match decides the status code; in particular a message containing
`"Unauthorized"` is always the 401 error, whatever else it contains. -/
theorem classification_precedence (msg : String) :
    ((mkNotionError msg).statusCode =
      (if strContains msg "Unauthorized" then 401
       else if strContains msg "Not Found" then 404
       else if strContains msg "Validation" then 400
       else 500))
    ∧ (strContains msg "Unauthorized" = true →
        (mkNotionError msg).statusCode = 401) := by
  constructor
  · by_cases h1 : strContains msg "Unauthorized"
    · simp [mkNotionError, classifyError, errStatus, h1]
    · by_cases h2 : strContains msg "Not Found"
      · simp [mkNotionError, classifyError, errStatus, h1, h2]
      · by_cases h3 : strContains msg "Validation"
        · simp [mkNotionError, classifyError, errStatus, h1, h2, h3]
        · simp [mkNotionError, classifyError, errStatus, h1, h2, h3]
  · intro h1
    simp [mkNotionError, classifyError, errStatus, h1]

/-- Witness for C10: a message containing both `"Unauthorized"` and
`"Validation"` is classified 401, never 400. -/
theorem classification_precedence_witness :
    (mkNotionError "Unauthorized: Validation rejected").statusCode = 401 :=
  (classification_precedence "Unauthorized: Validation rejected").2
    (by decide)

/-- The collection loop gathers at most `fuel` items and only reorders
nothing: batch followed by remainder is the original queue. -/
theorem collectGo_spec {α : Type} :
    ∀ (fuel : Nat) (q : List α),
      (collectGo fuel q).1.length ≤ fuel
      ∧ (collectGo fuel q).1 ++ (collectGo fuel q).2 = q := by
  intro fuel
  induction fuel with
  | zero => intro q; simp [collectGo]
  | succ f ih =>
    intro q
    cases q with
    | nil => simp [collectGo]
    | cons x rest =>
      refine ⟨?_, ?_⟩
      · simpa [collectGo] using Nat.succ_le_succ (ih rest).1
      · simp [collectGo, (ih rest).2]

/-- Claim C4: a collection cycle stops at `BATCH_SIZE` items or at the
first dequeue timeout (modelled as the queue running empty), so a batch
never exceeds `BATCH_SIZE`; with 15 enqueued submissions and
`BATCH_SIZE = 10` the first cycle collects exactly the first 10 and the
second cycle collects the remaining 5. -/
theorem batch_never_exceeds_batch_size {α : Type} (q : List α) :
    (collectBatch q).1.length ≤ BATCH_SIZE
    ∧ (collectBatch q).1 ++ (collectBatch q).2 = q
    ∧ collectBatch (List.range 15)
        = (List.range 10, [10, 11, 12, 13, 14])
    ∧ collectBatch ([10, 11, 12, 13, 14] : List Nat)
        = ([10, 11, 12, 13, 14], ([] : List Nat)) := by
  refine ⟨(collectGo_spec BATCH_SIZE q).1, (collectGo_spec BATCH_SIZE q).2,
    by decide, by decide⟩

/-- The loop body changes `failed_requests` by exactly 1 for a failing
item and 0 for a succeeding one. -/
theorem processItem_failed_eq (m : Metrics) (it : BatchItem) :
    (processItem m it).failed_requests
      = m.failed_requests + (if isFailedItem it then 1 else 0) := by
  rcases it with ⟨qt, res, nt⟩
  cases res <;>
    simp [processItem, isFailedItem, Metrics.add_queue_time,
      Metrics.add_notion_time]

/-- The loop body never changes `total_requests`. -/
theorem processItem_total_eq (m : Metrics) (it : BatchItem) :
    (processItem m it).total_requests = m.total_requests := by
  rcases it with ⟨qt, res, nt⟩
  cases res <;>
    simp [processItem, Metrics.add_queue_time, Metrics.add_notion_time]

/-- Over a whole batch, `failed_requests` grows by exactly the number of
failing items — every item is processed, none aborts the loop. -/
theorem process_batch_failed_count (m : Metrics) (batch : List BatchItem) :
    (process_batch m batch).failed_requests
      = m.failed_requests + batch.countP (fun it => isFailedItem it) := by
  induction batch generalizing m with
  | nil => simp [process_batch]
  | cons x xs ih =>
    have hstep : process_batch m (x :: xs)
        = process_batch (processItem m x) xs := rfl
    rw [hstep, ih (processItem m x), processItem_failed_eq,
      List.countP_cons]
    by_cases h : isFailedItem x
    · simp [h]
      omega
    · simp [h]

/-- Claim C5: a dispatch failure for one entry is absorbed inside the
batch loop — the fold proceeds through the failing entry to all later
entries, the failing entry adds exactly 1 to `failed_requests`, and over
any batch the failure counter grows by exactly the number of failing
entries (so no failure escapes the batch processor). -/
theorem batch_failure_isolated (m : Metrics) (pre post : List BatchItem)
    (x : BatchItem) (err : NotionError)
    (hx : x.dispatchResult = Except.error err) :
    process_batch m (pre ++ x :: post)
      = process_batch (processItem (process_batch m pre) x) post
    ∧ (processItem (process_batch m pre) x).failed_requests
      = (process_batch m pre).failed_requests + 1
    ∧ (∀ batch : List BatchItem,
        (process_batch m batch).failed_requests
          = m.failed_requests + batch.countP (fun it => isFailedItem it)) := by
  refine ⟨?_, ?_, fun batch => process_batch_failed_count m batch⟩
  · simp [process_batch, List.foldl_append]
  · rw [processItem_failed_eq]
    have hfl : isFailedItem x = true := by simp [isFailedItem, hx]
    simp [hfl]

/-- Witness for C5 at a concrete one-element batch whose item fails. -/
theorem batch_failure_isolated_witness :
    process_batch (Metrics.init 0)
        ([] ++ ({ queueTime := 0,
                  dispatchResult := Except.error (mkNotionError "boom"),
                  notionTime := 0 } : BatchItem) :: [])
      = process_batch
          (processItem (process_batch (Metrics.init 0) [])
            { queueTime := 0,
              dispatchResult := Except.error (mkNotionError "boom"),
              notionTime := 0 }) []
    ∧ (processItem (process_batch (Metrics.init 0) [])
        { queueTime := 0,
          dispatchResult := Except.error (mkNotionError "boom"),
          notionTime := 0 }).failed_requests
      = (process_batch (Metrics.init 0) []).failed_requests + 1 :=
  ⟨(batch_failure_isolated (Metrics.init 0) [] []
      { queueTime := 0,
        dispatchResult := Except.error (mkNotionError "boom"),
        notionTime := 0 } (mkNotionError "boom") rfl).1,
   (batch_failure_isolated (Metrics.init 0) [] []
      { queueTime := 0,
        dispatchResult := Except.error (mkNotionError "boom"),
        notionTime := 0 } (mkNotionError "boom") rfl).2.1⟩

/-- A window at or below the cap stays at or below the cap after a push. -/
theorem pushWindow_length_le (w : List ℚ) (t : ℚ) (h : w.length ≤ 100) :
    (pushWindow w t).length ≤ 100 := by
  show (if 100 < (w ++ [t]).length then (w ++ [t]).drop 1
        else w ++ [t]).length ≤ 100
  by_cases hc : 100 < (w ++ [t]).length
  · rw [if_pos hc]
    simp only [List.length_drop, List.length_append, List.length_singleton]
    omega
  · rw [if_neg hc]
    simp only [List.length_append, List.length_singleton] at hc ⊢
    omega

/-- Pushing onto a full window evicts exactly the oldest sample. -/
theorem pushWindow_evict (w : List ℚ) (t : ℚ) (h : w.length = 100) :
    pushWindow w t = w.drop 1 ++ [t] := by
  unfold pushWindow
  rw [if_pos (by simp [h])]
  cases w with
  | nil => simp at h
  | cons a rest => simp

/-- Claim C6: each of the three rolling windows holds at most 100 samples
— every `add_*_time` preserves the bound — and pushing onto a full window
evicts exactly the oldest sample (FIFO). -/
theorem rolling_windows_bounded (m : Metrics) (t : ℚ)
    (hr : m.request_times.length ≤ 100)
    (hq : m.queue_times.length ≤ 100)
    (hn : m.notion_api_times.length ≤ 100) :
    (m.add_request_time t).request_times.length ≤ 100
    ∧ (m.add_queue_time t).queue_times.length ≤ 100
    ∧ (m.add_notion_time t).notion_api_times.length ≤ 100
    ∧ (m.request_times.length = 100 →
        (m.add_request_time t).request_times
          = m.request_times.drop 1 ++ [t])
    ∧ (m.queue_times.length = 100 →
        (m.add_queue_time t).queue_times = m.queue_times.drop 1 ++ [t])
    ∧ (m.notion_api_times.length = 100 →
        (m.add_notion_time t).notion_api_times
          = m.notion_api_times.drop 1 ++ [t]) := by
  refine ⟨pushWindow_length_le _ _ hr, pushWindow_length_le _ _ hq,
    pushWindow_length_le _ _ hn,
    fun h => pushWindow_evict _ _ h,
    fun h => pushWindow_evict _ _ h,
    fun h => pushWindow_evict _ _ h⟩

/-- Witness for C6 at a full (length-100) request-time window. -/
theorem rolling_windows_bounded_witness :
    (({ Metrics.init 0 with
        request_times := List.replicate 100 0 } : Metrics).add_request_time
          7).request_times.length ≤ 100
    ∧ (({ Metrics.init 0 with
        request_times := List.replicate 100 0 } : Metrics).add_request_time
          7).request_times
        = (List.replicate 100 (0 : ℚ)).drop 1 ++ [7] :=
  ⟨(rolling_windows_bounded
      { Metrics.init 0 with request_times := List.replicate 100 0 } 7
      (by simp) (by simp [Metrics.init]) (by simp [Metrics.init])).1,
   (rolling_windows_bounded
      { Metrics.init 0 with request_times := List.replicate 100 0 } 7
      (by simp) (by simp [Metrics.init])
      (by simp [Metrics.init])).2.2.2.1 (by simp)⟩

/-- Claim C7: the snapshot's `success_rate` is 100 when `total_requests`
is 0 and `(total - failed) / total * 100` otherwise (5 total, 2 failed
gives 60), and each window's reported average is 0 when the window is
empty. -/
theorem stats_success_rate_and_means (m : Metrics) (now : ℚ) :
    (m.total_requests = 0 → (m.get_stats now).success_rate = 100)
    ∧ (0 < m.total_requests → (m.get_stats now).success_rate
        = ((m.total_requests : ℚ) - (m.failed_requests : ℚ))
            / (m.total_requests : ℚ) * 100)
    ∧ (m.request_times = [] → (m.get_stats now).average_request_time = 0)
    ∧ (m.queue_times = [] → (m.get_stats now).average_queue_time = 0)
    ∧ (m.notion_api_times = [] →
        (m.get_stats now).average_notion_time = 0)
    ∧ (({ Metrics.init 0 with total_requests := 5, failed_requests := 2 }
          : Metrics).get_stats now).success_rate = 60 := by
  refine ⟨fun h => ?_, fun h => ?_, fun h => ?_, fun h => ?_,
    fun h => ?_, ?_⟩
  · simp [Metrics.get_stats, h]
  · simp [Metrics.get_stats, h]
  · simp [Metrics.get_stats, h]
  · simp [Metrics.get_stats, h]
  · simp [Metrics.get_stats, h]
  · norm_num [Metrics.get_stats, Metrics.init]

/-- Witness for C7 at the freshly initialised metrics. -/
theorem stats_success_rate_and_means_witness :
    ((Metrics.init 0).get_stats 0).success_rate = 100
    ∧ ((Metrics.init 0).get_stats 0).average_request_time = 0 :=
  ⟨(stats_success_rate_and_means (Metrics.init 0) 0).1 rfl,
   (stats_success_rate_and_means (Metrics.init 0) 0).2.2.1 rfl⟩

/-- The inductive invariant of the webhook/batch interleavings: pending
items are already counted in `total_requests`, so failures plus pending
never exceed the total. -/
theorem sysStep_inv (s : Metrics × Nat) (hs : SysReachable s) :
    s.1.failed_requests + s.2 ≤ s.1.total_requests := by
  induction hs with
  | refl => simp [Metrics.init]
  | tail _ step ih =>
    cases step with
    | submit_ok m q rt =>
      simp only [Metrics.add_request_time, incTotal] at *
      omega
    | submit_fail m q =>
      simp only [incFailed, incTotal] at *
      omega
    | dispatch m q it =>
      have hf := processItem_failed_eq m it
      have ht := processItem_total_eq m it
      simp only [] at *
      by_cases h : isFailedItem it <;> simp [h] at hf <;> omega

/-- Claim C8: in every state reachable by interleaving webhook submissions
and batch-dispatch steps, `failed_requests ≤ total_requests`; moreover no
step decreases either counter. -/
theorem failed_le_total_invariant :
    (∀ s : Metrics × Nat, SysReachable s →
        s.1.failed_requests ≤ s.1.total_requests)
    ∧ (∀ s u : Metrics × Nat, SysStep s u →
        s.1.total_requests ≤ u.1.total_requests
        ∧ s.1.failed_requests ≤ u.1.failed_requests) := by
  constructor
  · intro s hs
    have h := sysStep_inv s hs
    omega
  · intro s u step
    cases step with
    | submit_ok m q rt =>
      simp [Metrics.add_request_time, incTotal]
    | submit_fail m q =>
      simp [incFailed, incTotal]
    | dispatch m q it =>
      have hf := processItem_failed_eq m it
      have ht := processItem_total_eq m it
      constructor
      · show m.total_requests ≤ (processItem m it).total_requests
        omega
      · show m.failed_requests ≤ (processItem m it).failed_requests
        by_cases h : isFailedItem it <;> simp [h] at hf <;> omega

/-- Witness for C8 at the state reached by one accepted submission whose
dispatch then fails. -/
theorem failed_le_total_invariant_witness :
    (processItem ((incTotal (Metrics.init 0)).add_request_time 1)
        { queueTime := 0,
          dispatchResult := Except.error (mkNotionError "boom"),
          notionTime := 0 }).failed_requests
      ≤ (processItem ((incTotal (Metrics.init 0)).add_request_time 1)
          { queueTime := 0,
            dispatchResult := Except.error (mkNotionError "boom"),
            notionTime := 0 }).total_requests :=
  failed_le_total_invariant.1
    (processItem ((incTotal (Metrics.init 0)).add_request_time 1)
      { queueTime := 0,
        dispatchResult := Except.error (mkNotionError "boom"),
        notionTime := 0 }, 0)
    (Relation.ReflTransGen.tail
      (Relation.ReflTransGen.tail Relation.ReflTransGen.refl
        (SysStep.submit_ok (Metrics.init 0) 0 1))
      (SysStep.dispatch ((incTotal (Metrics.init 0)).add_request_time 1) 0
        { queueTime := 0,
          dispatchResult := Except.error (mkNotionError "boom"),
          notionTime := 0 }))

/-- Claim C9: a first `get` on an empty cache fetches and stores; a second
`get` whose instant keeps the entry's age below the TTL returns the cached
value with no further fetch (one fetch across the two calls); a `get`
after the age exceeds the TTL performs a new fetch and stores the fresh
result. -/
theorem cache_ttl_behaviour (fetch1 fetch2 fetch3 : String) (t1 t2 t3 : ℚ)
    (h12 : t2 - t1 < CACHE_TTL) (h13 : CACHE_TTL < t3 - t1) :
    get_database_info none fetch1 t1 = (fetch1, some (t1, fetch1), 1)
    ∧ get_database_info (some (t1, fetch1)) fetch2 t2
        = (fetch1, some (t1, fetch1), 0)
    ∧ get_database_info (some (t1, fetch1)) fetch3 t3
        = (fetch3, some (t3, fetch3), 1) := by
  refine ⟨rfl, ?_, ?_⟩
  · have hhit : t2 < t1 + CACHE_TTL := by linarith
    simp [get_database_info, cacheLookup, hhit]
  · have hmiss : ¬ t3 < t1 + CACHE_TTL := by linarith
    simp [get_database_info, cacheLookup, hmiss]

/-- Witness for C9 at instants 0, 100 and 400 with `CACHE_TTL = 300`. -/
theorem cache_ttl_behaviour_witness :
    get_database_info none "schemaA" 0 = ("schemaA", some (0, "schemaA"), 1)
    ∧ get_database_info (some (0, "schemaA")) "schemaB" 100
        = ("schemaA", some (0, "schemaA"), 0)
    ∧ get_database_info (some (0, "schemaA")) "schemaC" 400
        = ("schemaC", some (400, "schemaC"), 1) :=
  cache_ttl_behaviour "schemaA" "schemaB" "schemaC" 0 100 400
    (by norm_num [CACHE_TTL]) (by norm_num [CACHE_TTL])

end NotionWebhook
